import Mathlib

/-!
Verification of the SGDK Z80 sound-driver control layer (`sound.c`) and the
host-side sample preparation utility (`SoundUtil.java`).

The C functions are shallowly embedded as pure state transformers over an
explicit model of the shared Z80 register window.  Machine bytes are modelled
as `Nat` with explicit `% 256` truncation on every store, exactly where the C
code stores through a `u8 *`.  The Java utility is embedded as a pure function
parameterised by the platform audio system (an external collaborator).
-/

/-! ## Constants

The numeric driver identifiers and the bit-layout constants come from the
`z80_ctrl.h` / `sound.h` headers, which are not part of the visible sources.
They are modelled from the spec ("command byte: one bit per channel",
"status region: per-channel playing / per-channel loop bits"). -/

/-- Modelled from the spec: driver identifier for the single channel PCM
driver (value from the missing `z80_ctrl.h`; only distinctness matters). -/
def Z80_DRIVER_PCM : Nat := 1

/-- Modelled from the spec: driver identifier for the 2 channels ADPCM driver. -/
def Z80_DRIVER_2ADPCM : Nat := 2

/-- Modelled from the spec: driver identifier for the 4 channels PCM driver. -/
def Z80_DRIVER_4PCM : Nat := 3

/-- Modelled from the spec: driver identifier for the 4 channels PCM driver
with volume envelope support. -/
def Z80_DRIVER_4PCM_ENV : Nat := 4

/-- Modelled from the spec: driver identifier for the MVS tracker driver. -/
def Z80_DRIVER_MVS : Nat := 5

/-- Modelled from the spec: driver identifier for the TFM tracker driver. -/
def Z80_DRIVER_TFM : Nat := 6

/-- Modelled from the spec: the "playing" status flag for channel 0; the spec
says the status region holds one playing bit per channel, so the flag for
channel `ch` is `Z80_DRV_STAT_PLAYING <<< ch`, i.e. bit `ch`. -/
def Z80_DRV_STAT_PLAYING : Nat := 0x01

/-- Modelled from the spec: shift applied to a channel mask to align it with
the per-channel playing bits of the status byte (the playing bits start at
bit 0, so the shift is 0). -/
def Z80_DRV_STAT_PLAYING_SFT : Nat := 0

/-- Modelled from the spec: the "play" command flag for channel 0; the spec
says the command byte holds one start bit per channel, so the command bit for
channel `ch` is `Z80_DRV_COM_PLAY <<< ch`, i.e. bit `ch`. -/
def Z80_DRV_COM_PLAY : Nat := 0x01

/-- Modelled from the spec: sentinel channel selector asking the allocator to
pick a free channel.  Its concrete value (from the missing `sound.h`) is
irrelevant as long as it is distinct from every valid channel index 0..3. -/
def SOUND_PCM_CH_AUTO : Nat := 0xFF

/-! ## Register window state -/

/-- The Z80 shared register window, as partitioned by the drivers:
the command byte (`Z80_DRV_COMMAND`), the two status bytes
(`Z80_DRV_STATUS`: byte 0 = playing bits, byte 1 = loop bits) and the
parameters region (`pb = Z80_DRV_PARAMS`, indexed by byte offset). -/
structure DrvState where
  command : Nat
  statusPlay : Nat
  statusLoop : Nat
  params : Nat → Nat

/-- A fully zeroed register window, used as a concrete test state. -/
def zeroState : DrvState :=
  { command := 0, statusPlay := 0, statusLoop := 0, params := fun _ => 0 }

/-- Store of an integer value through a `u8 *` at byte offset `off`:
the value is truncated to 8 bits, all other bytes are untouched. -/
def storeByte (m : Nat → Nat) (off v : Nat) : Nat → Nat :=
  fun i => if i = off then v % 256 else m i

/-- `pb[off] = v` on the parameters region. -/
def writeParamByte (st : DrvState) (off v : Nat) : DrvState :=
  { st with params := storeByte st.params off v }

/-- C `b |= m` on a byte: the result is truncated to 8 bits as it is stored
back through a `u8 *`. -/
def setBits (b m : Nat) : Nat := (b ||| m) % 256

/-- C `b &= ~m` on a byte: `~m` is the int complement, the store truncates to
8 bits, so the result is `(b & 0xFF) & (0xFF ^ (m & 0xFF))`. -/
def clearBits (b m : Nat) : Nat := (b % 256) &&& (0xFF ^^^ (m &&& 0xFF))

/-! ## Channel allocator

The `while ((ch < N) && (status & (Z80_DRV_STAT_PLAYING << ch))) ch++;` loop
of the startPlay functions, written with the remaining iteration count as
fuel (the loop runs at most `N` times starting from `ch = 0`). -/

/-- One `while` loop of the automatic channel scan: keep incrementing `ch`
while the channel's playing bit is set, for at most `fuel` more iterations
(`fuel = N - ch` at every call site, so the guard `ch < N` is `fuel > 0`). -/
def scanFree (status : Nat) : Nat → Nat → Nat
  | 0, ch => ch
  | fuel + 1, ch =>
      if status &&& (Z80_DRV_STAT_PLAYING <<< ch) ≠ 0 then
        scanFree status fuel (ch + 1)
      else ch

/-- The automatic channel selection of the startPlay functions: scan channels
`0..n-1` for the first one whose playing bit is clear; if all are busy
(`ch == n` after the loop) fall back to channel 0. -/
def autoChannel (status n : Nat) : Nat :=
  let ch := scanFree status n 0
  if ch == n then 0 else ch

/-- Channel resolution at the top of the startPlay functions: the sentinel
`SOUND_PCM_CH_AUTO` invokes the allocator, any other value is used as is. -/
def resolveChannel (channel n status : Nat) : Nat :=
  if channel == SOUND_PCM_CH_AUTO then autoChannel status n else channel

/-! ## Z80_DRIVER_PCM : single channel 8 bits PCM driver -/

/-- `SND_isPlaying_PCM`: read of the play status bit. -/
def SND_isPlaying_PCM (st : DrvState) : Nat :=
  st.statusPlay &&& Z80_DRV_STAT_PLAYING

/-- `SND_startPlay_PCM`: write sample address / length (256-byte aligned,
low 8 bits dropped) plus rate and pan to the base parameters, OR the play
command bit into the command byte, record the loop flag in status byte 1. -/
def SND_startPlay_PCM (sample len rate pan loop : Nat) (st : DrvState) : DrvState :=
  let st := writeParamByte st 0 (sample >>> 8)
  let st := writeParamByte st 1 (sample >>> 16)
  let st := writeParamByte st 2 (len >>> 8)
  let st := writeParamByte st 3 (len >>> 16)
  let st := writeParamByte st 4 rate
  let st := writeParamByte st 6 pan
  let st := { st with command := setBits st.command Z80_DRV_COM_PLAY }
  { st with
    statusLoop :=
      if loop ≠ 0 then setBits st.statusLoop Z80_DRV_STAT_PLAYING
      else clearBits st.statusLoop Z80_DRV_STAT_PLAYING }

/-! ## Z80_DRIVER_2ADPCM : 2 channels 4 bits ADPCM driver -/

/-- `SND_isPlaying_2ADPCM`: read of the play status bits under a channel mask. -/
def SND_isPlaying_2ADPCM (channel_mask : Nat) (st : DrvState) : Nat :=
  st.statusPlay &&& (channel_mask <<< Z80_DRV_STAT_PLAYING_SFT)

/-- `SND_startPlay_2ADPCM`: resolve the channel (automatic selection reads the
status byte), write the 128-byte-aligned sample address / length to the
channel's 4-byte parameter block (`pb = Z80_DRV_PARAMS + ch*4`), OR the
channel's play command bit, record the loop flag in status byte 1. -/
def SND_startPlay_2ADPCM (sample len channel loop : Nat) (st : DrvState) : DrvState :=
  let status := st.statusPlay
  let ch := resolveChannel channel 2 status
  let st := writeParamByte st (ch * 4 + 0) (sample >>> 7)
  let st := writeParamByte st (ch * 4 + 1) (sample >>> 15)
  let st := writeParamByte st (ch * 4 + 2) (len >>> 7)
  let st := writeParamByte st (ch * 4 + 3) (len >>> 15)
  let st := { st with command := setBits st.command (Z80_DRV_COM_PLAY <<< ch) }
  { st with
    statusLoop :=
      if loop ≠ 0 then setBits st.statusLoop (Z80_DRV_STAT_PLAYING <<< ch)
      else clearBits st.statusLoop (Z80_DRV_STAT_PLAYING <<< ch) }

/-! ## Z80_DRIVER_4PCM : 4 channels 8 bits PCM driver -/

/-- `SND_isPlaying_4PCM`: read of the play status bits under a channel mask. -/
def SND_isPlaying_4PCM (channel_mask : Nat) (st : DrvState) : Nat :=
  st.statusPlay &&& (channel_mask <<< Z80_DRV_STAT_PLAYING_SFT)

/-- `SND_startPlay_4PCM`: resolve the channel (automatic selection reads the
status byte), write the 256-byte-aligned sample address / length to the
channel's 4-byte parameter block (`pb = Z80_DRV_PARAMS + ch*4`), OR the
channel's play command bit, record the loop flag in status byte 1. -/
def SND_startPlay_4PCM (sample len channel loop : Nat) (st : DrvState) : DrvState :=
  let status := st.statusPlay
  let ch := resolveChannel channel 4 status
  let st := writeParamByte st (ch * 4 + 0) (sample >>> 8)
  let st := writeParamByte st (ch * 4 + 1) (sample >>> 16)
  let st := writeParamByte st (ch * 4 + 2) (len >>> 8)
  let st := writeParamByte st (ch * 4 + 3) (len >>> 16)
  let st := { st with command := setBits st.command (Z80_DRV_COM_PLAY <<< ch) }
  { st with
    statusLoop :=
      if loop ≠ 0 then setBits st.statusLoop (Z80_DRV_STAT_PLAYING <<< ch)
      else clearBits st.statusLoop (Z80_DRV_STAT_PLAYING <<< ch) }

/-! ## Z80_DRIVER_4PCM_ENV : 4 channels 8 bits PCM driver with envelope -/

/-- `SND_isPlaying_4PCM_ENV`: read of the play status bits under a channel mask. -/
def SND_isPlaying_4PCM_ENV (channel_mask : Nat) (st : DrvState) : Nat :=
  st.statusPlay &&& (channel_mask <<< Z80_DRV_STAT_PLAYING_SFT)

/-- `SND_startPlay_4PCM_ENV`: identical structure to `SND_startPlay_4PCM`. -/
def SND_startPlay_4PCM_ENV (sample len channel loop : Nat) (st : DrvState) : DrvState :=
  let status := st.statusPlay
  let ch := resolveChannel channel 4 status
  let st := writeParamByte st (ch * 4 + 0) (sample >>> 8)
  let st := writeParamByte st (ch * 4 + 1) (sample >>> 16)
  let st := writeParamByte st (ch * 4 + 2) (len >>> 8)
  let st := writeParamByte st (ch * 4 + 3) (len >>> 16)
  let st := { st with command := setBits st.command (Z80_DRV_COM_PLAY <<< ch) }
  { st with
    statusLoop :=
      if loop ≠ 0 then setBits st.statusLoop (Z80_DRV_STAT_PLAYING <<< ch)
      else clearBits st.statusLoop (Z80_DRV_STAT_PLAYING <<< ch) }

/-- `SND_setVolume_4PCM_ENV`: store `volume & 0x0F` at the channel's volume
byte (`pb = Z80_DRV_PARAMS + 0x20 + channel`). -/
def SND_setVolume_4PCM_ENV (channel volume : Nat) (st : DrvState) : DrvState :=
  writeParamByte st (0x20 + channel) (volume &&& 0x0F)

/-- `SND_getVolume_4PCM_ENV`: read the channel's volume byte masked to the
low 4 bits. -/
def SND_getVolume_4PCM_ENV (channel : Nat) (st : DrvState) : Nat :=
  st.params (0x20 + channel) &&& 0x0F

/-! ## Null samples and the stop functions

`smp_null` (8-bit PCM format) and `smp_null_pcm` (4-bit ADPCM format) are
compiled-in constant buffers declared in headers that are not part of the
visible sources; only their addresses and sizes enter the stop functions, so
they are parameters of the model. -/

/-- Modelled from the spec: the addresses and sizes of the two compiled-in
null sample buffers (`smp_null`, 8-bit PCM format, and `smp_null_pcm`, 4-bit
ADPCM format) that the stop functions substitute into a channel to silence it. -/
structure NullSamples where
  smp_null_addr : Nat
  smp_null_size : Nat
  smp_null_pcm_addr : Nat
  smp_null_pcm_size : Nat

/-- `SND_stopPlay_PCM`: re-arm the internal parameters
(`pb = Z80_DRV_PARAMS + 0x10`) with the `smp_null` sample (256-byte shift),
then clear the play bit (status byte 0) and the loop bit (status byte 1).
No write to the command byte. -/
def SND_stopPlay_PCM (ns : NullSamples) (st : DrvState) : DrvState :=
  let st := writeParamByte st (0x10 + 0) (ns.smp_null_addr >>> 8)
  let st := writeParamByte st (0x10 + 1) (ns.smp_null_addr >>> 16)
  let st := writeParamByte st (0x10 + 2) (ns.smp_null_size >>> 8)
  let st := writeParamByte st (0x10 + 3) (ns.smp_null_size >>> 16)
  let st := { st with statusPlay := clearBits st.statusPlay Z80_DRV_STAT_PLAYING }
  { st with statusLoop := clearBits st.statusLoop Z80_DRV_STAT_PLAYING }

/-- `SND_stopPlay_2ADPCM`: re-arm the channel's internal parameters
(`pb = Z80_DRV_PARAMS + 0x10 + channel*4`) with the `smp_null_pcm` sample
(128-byte shift), then clear the channel's play and loop bits.
No write to the command byte. -/
def SND_stopPlay_2ADPCM (ns : NullSamples) (channel : Nat) (st : DrvState) : DrvState :=
  let st := writeParamByte st (0x10 + channel * 4 + 0) (ns.smp_null_pcm_addr >>> 7)
  let st := writeParamByte st (0x10 + channel * 4 + 1) (ns.smp_null_pcm_addr >>> 15)
  let st := writeParamByte st (0x10 + channel * 4 + 2) (ns.smp_null_pcm_size >>> 7)
  let st := writeParamByte st (0x10 + channel * 4 + 3) (ns.smp_null_pcm_size >>> 15)
  let st := { st with statusPlay := clearBits st.statusPlay (Z80_DRV_STAT_PLAYING <<< channel) }
  { st with statusLoop := clearBits st.statusLoop (Z80_DRV_STAT_PLAYING <<< channel) }

/-- `SND_stopPlay_4PCM`: re-arm the channel's internal parameters
(`pb = Z80_DRV_PARAMS + 0x10 + channel*4`) with the `smp_null` sample
(256-byte shift), then clear the channel's play and loop bits.
No write to the command byte. -/
def SND_stopPlay_4PCM (ns : NullSamples) (channel : Nat) (st : DrvState) : DrvState :=
  let st := writeParamByte st (0x10 + channel * 4 + 0) (ns.smp_null_addr >>> 8)
  let st := writeParamByte st (0x10 + channel * 4 + 1) (ns.smp_null_addr >>> 16)
  let st := writeParamByte st (0x10 + channel * 4 + 2) (ns.smp_null_size >>> 8)
  let st := writeParamByte st (0x10 + channel * 4 + 3) (ns.smp_null_size >>> 16)
  let st := { st with statusPlay := clearBits st.statusPlay (Z80_DRV_STAT_PLAYING <<< channel) }
  { st with statusLoop := clearBits st.statusLoop (Z80_DRV_STAT_PLAYING <<< channel) }

/-- `SND_stopPlay_4PCM_ENV`: identical structure to `SND_stopPlay_4PCM`. -/
def SND_stopPlay_4PCM_ENV (ns : NullSamples) (channel : Nat) (st : DrvState) : DrvState :=
  let st := writeParamByte st (0x10 + channel * 4 + 0) (ns.smp_null_addr >>> 8)
  let st := writeParamByte st (0x10 + channel * 4 + 1) (ns.smp_null_addr >>> 16)
  let st := writeParamByte st (0x10 + channel * 4 + 2) (ns.smp_null_size >>> 8)
  let st := writeParamByte st (0x10 + channel * 4 + 3) (ns.smp_null_size >>> 16)
  let st := { st with statusPlay := clearBits st.statusPlay (Z80_DRV_STAT_PLAYING <<< channel) }
  { st with statusLoop := clearBits st.statusLoop (Z80_DRV_STAT_PLAYING <<< channel) }

/-! ## Z80_DRIVER_TFM : TFM tracker driver, song address block -/

/-- The sequence of `(offset, value)` stores `SND_startPlay_TFM` performs on
its parameter block at `0xA01FFC`: `pb[0x00] = addr >> 0`,
`pb[0x01] = addr >> 8`, `pb[0x02] = addr >> 16`, `pb[0x00] = addr >> 24`
(the last line of the source stores bits 24-31 back to offset 0). -/
def SND_startPlay_TFM_writes (addr : Nat) : List (Nat × Nat) :=
  [(0x00, addr >>> 0), (0x01, addr >>> 8), (0x02, addr >>> 16), (0x00, addr >>> 24)]

/-- `SND_startPlay_TFM`, effect on the TFM parameter block: perform the four
byte stores in source order. -/
def SND_startPlay_TFM (song : Nat) (m : Nat → Nat) : Nat → Nat :=
  (SND_startPlay_TFM_writes song).foldl (fun acc w => storeByte acc w.1 w.2) m

/-- The little-endian decoding of a two-byte parameter field, as the spec's
round-trip law reads it: low byte plus 256 times the high byte. -/
def decodeWord (lo hi : Nat) : Nat := lo + 256 * hi

/-! ## Small byte-level lemmas shared by the proofs -/

theorem testBit_setBits_self (b i : Nat) (h : i < 8) :
    (setBits b (1 <<< i)).testBit i = true := by
  have e : (256 : Nat) = 2 ^ 8 := rfl
  rw [setBits, e, Nat.testBit_mod_two_pow, Nat.testBit_or, Nat.shiftLeft_eq, one_mul,
    Nat.testBit_two_pow_self]
  simp [h]

theorem testBit_setBits_other (b m j : Nat) (h : j < 8) :
    (setBits b m).testBit j = (b.testBit j || m.testBit j) := by
  have e : (256 : Nat) = 2 ^ 8 := rfl
  rw [setBits, e, Nat.testBit_mod_two_pow, Nat.testBit_or]
  simp [h]

theorem testBit_clearBits_self (b i : Nat) (h : i < 8) :
    (clearBits b (1 <<< i)).testBit i = false := by
  have e255 : (0xFF : Nat) = 2 ^ 8 - 1 := rfl
  rw [clearBits, Nat.testBit_and, Nat.testBit_xor, e255, Nat.testBit_two_pow_sub_one,
    Nat.testBit_and, Nat.testBit_two_pow_sub_one, Nat.shiftLeft_eq, one_mul,
    Nat.testBit_two_pow_self]
  simp [h]

theorem testBit_clearBits_other (b m j : Nat) (h : j < 8) (hm : m.testBit j = false) :
    (clearBits b m).testBit j = b.testBit j := by
  have e255 : (0xFF : Nat) = 2 ^ 8 - 1 := rfl
  have e : (256 : Nat) = 2 ^ 8 := rfl
  rw [clearBits, Nat.testBit_and, Nat.testBit_xor, e255, Nat.testBit_two_pow_sub_one,
    Nat.testBit_and, Nat.testBit_two_pow_sub_one, e, Nat.testBit_mod_two_pow]
  simp [h, hm]

theorem testBit_one_shiftLeft_ne (i j : Nat) (hne : j ≠ i) :
    (1 <<< i).testBit j = false := by
  rw [Nat.shiftLeft_eq, one_mul]
  exact Nat.testBit_two_pow_of_ne (fun h => hne h.symm)

theorem resolveChannel_explicit (ch n s : Nat) (h : ch ≠ SOUND_PCM_CH_AUTO) :
    resolveChannel ch n s = ch := by
  simp [resolveChannel, h]

theorem decode_two_bytes (x : Nat) (h : x < 65536) :
    decodeWord (x % 256) ((x >>> 8) % 256) = x := by
  rw [decodeWord, Nat.shiftRight_eq_div_pow]
  omega

theorem shiftRight_sixteen (A : Nat) : A >>> 16 = (A >>> 8) >>> 8 := by
  rw [← Nat.shiftRight_add]

theorem shiftRight_fifteen (A : Nat) : A >>> 15 = (A >>> 7) >>> 8 := by
  rw [← Nat.shiftRight_add]

theorem SND_startPlay_4PCM_params_explicit (A L ch loop : Nat) (st : DrvState)
    (h : ch ≠ SOUND_PCM_CH_AUTO) :
    (SND_startPlay_4PCM A L ch loop st).params (ch * 4) = (A >>> 8) % 256 ∧
    (SND_startPlay_4PCM A L ch loop st).params (ch * 4 + 1) = (A >>> 16) % 256 ∧
    (SND_startPlay_4PCM A L ch loop st).params (ch * 4 + 2) = (L >>> 8) % 256 ∧
    (SND_startPlay_4PCM A L ch loop st).params (ch * 4 + 3) = (L >>> 16) % 256 := by
  have heq : resolveChannel ch 4 st.statusPlay = ch := resolveChannel_explicit _ _ _ h
  simp only [SND_startPlay_4PCM, heq, writeParamByte]
  refine ⟨?_, ?_, ?_, ?_⟩ <;> (simp only [storeByte]; split_ifs <;> omega)

theorem SND_startPlay_4PCM_ENV_params_explicit (A L ch loop : Nat) (st : DrvState)
    (h : ch ≠ SOUND_PCM_CH_AUTO) :
    (SND_startPlay_4PCM_ENV A L ch loop st).params (ch * 4) = (A >>> 8) % 256 ∧
    (SND_startPlay_4PCM_ENV A L ch loop st).params (ch * 4 + 1) = (A >>> 16) % 256 ∧
    (SND_startPlay_4PCM_ENV A L ch loop st).params (ch * 4 + 2) = (L >>> 8) % 256 ∧
    (SND_startPlay_4PCM_ENV A L ch loop st).params (ch * 4 + 3) = (L >>> 16) % 256 := by
  have heq : resolveChannel ch 4 st.statusPlay = ch := resolveChannel_explicit _ _ _ h
  simp only [SND_startPlay_4PCM_ENV, heq, writeParamByte]
  refine ⟨?_, ?_, ?_, ?_⟩ <;> (simp only [storeByte]; split_ifs <;> omega)

theorem SND_startPlay_2ADPCM_params_explicit (A L ch loop : Nat) (st : DrvState)
    (h : ch ≠ SOUND_PCM_CH_AUTO) :
    (SND_startPlay_2ADPCM A L ch loop st).params (ch * 4) = (A >>> 7) % 256 ∧
    (SND_startPlay_2ADPCM A L ch loop st).params (ch * 4 + 1) = (A >>> 15) % 256 ∧
    (SND_startPlay_2ADPCM A L ch loop st).params (ch * 4 + 2) = (L >>> 7) % 256 ∧
    (SND_startPlay_2ADPCM A L ch loop st).params (ch * 4 + 3) = (L >>> 15) % 256 := by
  have heq : resolveChannel ch 2 st.statusPlay = ch := resolveChannel_explicit _ _ _ h
  simp only [SND_startPlay_2ADPCM, heq, writeParamByte]
  refine ⟨?_, ?_, ?_, ?_⟩ <;> (simp only [storeByte]; split_ifs <;> omega)

theorem SND_startPlay_PCM_params (A L rate pan loop : Nat) (st : DrvState) :
    (SND_startPlay_PCM A L rate pan loop st).params 0 = (A >>> 8) % 256 ∧
    (SND_startPlay_PCM A L rate pan loop st).params 1 = (A >>> 16) % 256 ∧
    (SND_startPlay_PCM A L rate pan loop st).params 2 = (L >>> 8) % 256 ∧
    (SND_startPlay_PCM A L rate pan loop st).params 3 = (L >>> 16) % 256 := by
  simp only [SND_startPlay_PCM, writeParamByte]
  refine ⟨?_, ?_, ?_, ?_⟩ <;> (simp only [storeByte]; norm_num)

/-- C1: For the PCM-family drivers, for every sample address `A` and length
`L` aligned to the variant's boundary (shift `s = 8` for PCM / 4PCM /
4PCM_ENV, `s = 7` for 2ADPCM), startPlay encodes the parameters block as
byte 0 = `(A >> s) & 0xFF`, byte 1 = `(A >> (s+8)) & 0xFF`,
byte 2 = `(L >> s) & 0xFF`, byte 3 = `(L >> (s+8)) & 0xFF`, so decoding the
four bytes recovers `A >> s` and `L >> s` exactly whenever those shifted
values fit in 16 bits (round-trip law on the representable range). -/
theorem pcm_family_params_roundtrip :
    (∀ A L ch loop : Nat, ∀ st : DrvState, ch < 4 →
      A % 256 = 0 → L % 256 = 0 → A >>> 8 < 65536 → L >>> 8 < 65536 →
      (SND_startPlay_4PCM A L ch loop st).params (ch * 4) = (A >>> 8) % 256 ∧
      (SND_startPlay_4PCM A L ch loop st).params (ch * 4 + 1) = (A >>> (8 + 8)) % 256 ∧
      (SND_startPlay_4PCM A L ch loop st).params (ch * 4 + 2) = (L >>> 8) % 256 ∧
      (SND_startPlay_4PCM A L ch loop st).params (ch * 4 + 3) = (L >>> (8 + 8)) % 256 ∧
      decodeWord ((SND_startPlay_4PCM A L ch loop st).params (ch * 4))
          ((SND_startPlay_4PCM A L ch loop st).params (ch * 4 + 1)) = A >>> 8 ∧
      decodeWord ((SND_startPlay_4PCM A L ch loop st).params (ch * 4 + 2))
          ((SND_startPlay_4PCM A L ch loop st).params (ch * 4 + 3)) = L >>> 8) ∧
    (∀ A L ch loop : Nat, ∀ st : DrvState, ch < 4 →
      A % 256 = 0 → L % 256 = 0 → A >>> 8 < 65536 → L >>> 8 < 65536 →
      decodeWord ((SND_startPlay_4PCM_ENV A L ch loop st).params (ch * 4))
          ((SND_startPlay_4PCM_ENV A L ch loop st).params (ch * 4 + 1)) = A >>> 8 ∧
      decodeWord ((SND_startPlay_4PCM_ENV A L ch loop st).params (ch * 4 + 2))
          ((SND_startPlay_4PCM_ENV A L ch loop st).params (ch * 4 + 3)) = L >>> 8) ∧
    (∀ A L rate pan loop : Nat, ∀ st : DrvState,
      A % 256 = 0 → L % 256 = 0 → A >>> 8 < 65536 → L >>> 8 < 65536 →
      decodeWord ((SND_startPlay_PCM A L rate pan loop st).params 0)
          ((SND_startPlay_PCM A L rate pan loop st).params 1) = A >>> 8 ∧
      decodeWord ((SND_startPlay_PCM A L rate pan loop st).params 2)
          ((SND_startPlay_PCM A L rate pan loop st).params 3) = L >>> 8) ∧
    (∀ A L ch loop : Nat, ∀ st : DrvState, ch < 2 →
      A % 128 = 0 → L % 128 = 0 → A >>> 7 < 65536 → L >>> 7 < 65536 →
      (SND_startPlay_2ADPCM A L ch loop st).params (ch * 4) = (A >>> 7) % 256 ∧
      (SND_startPlay_2ADPCM A L ch loop st).params (ch * 4 + 1) = (A >>> (7 + 8)) % 256 ∧
      (SND_startPlay_2ADPCM A L ch loop st).params (ch * 4 + 2) = (L >>> 7) % 256 ∧
      (SND_startPlay_2ADPCM A L ch loop st).params (ch * 4 + 3) = (L >>> (7 + 8)) % 256 ∧
      decodeWord ((SND_startPlay_2ADPCM A L ch loop st).params (ch * 4))
          ((SND_startPlay_2ADPCM A L ch loop st).params (ch * 4 + 1)) = A >>> 7 ∧
      decodeWord ((SND_startPlay_2ADPCM A L ch loop st).params (ch * 4 + 2))
          ((SND_startPlay_2ADPCM A L ch loop st).params (ch * 4 + 3)) = L >>> 7) := by
  refine ⟨?_, ?_, ?_, ?_⟩
  · intro A L ch loop st hch _ _ h16A h16L
    have hne : ch ≠ SOUND_PCM_CH_AUTO := by simp only [SOUND_PCM_CH_AUTO]; omega
    obtain ⟨h0, h1, h2, h3⟩ := SND_startPlay_4PCM_params_explicit A L ch loop st hne
    refine ⟨h0, by rw [h1], h2, by rw [h3], ?_, ?_⟩
    · rw [h0, h1, shiftRight_sixteen]; exact decode_two_bytes _ h16A
    · rw [h2, h3, shiftRight_sixteen]; exact decode_two_bytes _ h16L
  · intro A L ch loop st hch _ _ h16A h16L
    have hne : ch ≠ SOUND_PCM_CH_AUTO := by simp only [SOUND_PCM_CH_AUTO]; omega
    obtain ⟨h0, h1, h2, h3⟩ := SND_startPlay_4PCM_ENV_params_explicit A L ch loop st hne
    constructor
    · rw [h0, h1, shiftRight_sixteen]; exact decode_two_bytes _ h16A
    · rw [h2, h3, shiftRight_sixteen]; exact decode_two_bytes _ h16L
  · intro A L rate pan loop st _ _ h16A h16L
    obtain ⟨h0, h1, h2, h3⟩ := SND_startPlay_PCM_params A L rate pan loop st
    constructor
    · rw [h0, h1, shiftRight_sixteen]; exact decode_two_bytes _ h16A
    · rw [h2, h3, shiftRight_sixteen]; exact decode_two_bytes _ h16L
  · intro A L ch loop st hch _ _ h16A h16L
    have hne : ch ≠ SOUND_PCM_CH_AUTO := by simp only [SOUND_PCM_CH_AUTO]; omega
    obtain ⟨h0, h1, h2, h3⟩ := SND_startPlay_2ADPCM_params_explicit A L ch loop st hne
    refine ⟨h0, by rw [h1], h2, by rw [h3], ?_, ?_⟩
    · rw [h0, h1, shiftRight_fifteen]; exact decode_two_bytes _ h16A
    · rw [h2, h3, shiftRight_fifteen]; exact decode_two_bytes _ h16L

/-- C1 witness: the round-trip law evaluated on a concrete aligned sample
(address `0x45600`, length `0x1200`, channel 2) for the 4PCM driver. -/
theorem pcm_family_params_roundtrip_witness :
    decodeWord ((SND_startPlay_4PCM 0x45600 0x1200 2 1 zeroState).params 8)
        ((SND_startPlay_4PCM 0x45600 0x1200 2 1 zeroState).params 9) = 0x456 :=
  (pcm_family_params_roundtrip.1 0x45600 0x1200 2 1 zeroState (by decide) (by decide)
    (by decide) (by decide) (by decide)).2.2.2.2.1

theorem scanFree_le (s : Nat) : ∀ fuel ch : Nat, scanFree s fuel ch ≤ ch + fuel := by
  intro fuel
  induction fuel with
  | zero => intro ch; simp [scanFree]
  | succ n ih =>
      intro ch
      rw [scanFree]
      split
      · exact le_trans (ih (ch + 1)) (by omega)
      · omega

theorem autoChannel_le (s n : Nat) : autoChannel s n ≤ n := by
  rw [autoChannel]
  split
  · omega
  · exact le_trans (scanFree_le s n 0) (by omega)

theorem resolveChannel_auto (n s : Nat) :
    resolveChannel SOUND_PCM_CH_AUTO n s = autoChannel s n := by
  simp [resolveChannel]

theorem SND_startPlay_4PCM_auto_eq (A L loop : Nat) (st : DrvState) :
    SND_startPlay_4PCM A L SOUND_PCM_CH_AUTO loop st
      = SND_startPlay_4PCM A L (autoChannel st.statusPlay 4) loop st := by
  have hne : autoChannel st.statusPlay 4 ≠ SOUND_PCM_CH_AUTO := by
    have := autoChannel_le st.statusPlay 4
    simp only [SOUND_PCM_CH_AUTO]
    omega
  simp only [SND_startPlay_4PCM, resolveChannel_auto, resolveChannel_explicit _ _ _ hne]

theorem SND_startPlay_4PCM_ENV_auto_eq (A L loop : Nat) (st : DrvState) :
    SND_startPlay_4PCM_ENV A L SOUND_PCM_CH_AUTO loop st
      = SND_startPlay_4PCM_ENV A L (autoChannel st.statusPlay 4) loop st := by
  have hne : autoChannel st.statusPlay 4 ≠ SOUND_PCM_CH_AUTO := by
    have := autoChannel_le st.statusPlay 4
    simp only [SOUND_PCM_CH_AUTO]
    omega
  simp only [SND_startPlay_4PCM_ENV, resolveChannel_auto, resolveChannel_explicit _ _ _ hne]

theorem SND_startPlay_2ADPCM_auto_eq (A L loop : Nat) (st : DrvState) :
    SND_startPlay_2ADPCM A L SOUND_PCM_CH_AUTO loop st
      = SND_startPlay_2ADPCM A L (autoChannel st.statusPlay 2) loop st := by
  have hne : autoChannel st.statusPlay 2 ≠ SOUND_PCM_CH_AUTO := by
    have := autoChannel_le st.statusPlay 2
    simp only [SOUND_PCM_CH_AUTO]
    omega
  simp only [SND_startPlay_2ADPCM, resolveChannel_auto, resolveChannel_explicit _ _ _ hne]

set_option maxRecDepth 20000 in
/-- C2: For every status byte, the automatic channel selector used by the
2ADPCM / 4PCM / 4PCM_ENV startPlay functions resolves to the lowest-indexed
channel whose playing bit is clear, and to channel 0 when the playing bits of
all N channels are set; it never fails.  Moreover startPlay with the
`SOUND_PCM_CH_AUTO` selector behaves exactly like startPlay on the resolved
channel. -/
theorem auto_channel_selection :
    (∀ s : Nat, s < 256 →
      ((∃ c, c < 4 ∧ s.testBit c = false) →
        autoChannel s 4 < 4 ∧ s.testBit (autoChannel s 4) = false ∧
        ∀ j, j < autoChannel s 4 → s.testBit j = true) ∧
      ((∀ c, c < 4 → s.testBit c = true) → autoChannel s 4 = 0)) ∧
    (∀ s : Nat, s < 256 →
      ((∃ c, c < 2 ∧ s.testBit c = false) →
        autoChannel s 2 < 2 ∧ s.testBit (autoChannel s 2) = false ∧
        ∀ j, j < autoChannel s 2 → s.testBit j = true) ∧
      ((∀ c, c < 2 → s.testBit c = true) → autoChannel s 2 = 0)) ∧
    (∀ A L loop : Nat, ∀ st : DrvState,
      SND_startPlay_4PCM A L SOUND_PCM_CH_AUTO loop st
        = SND_startPlay_4PCM A L (autoChannel st.statusPlay 4) loop st) ∧
    (∀ A L loop : Nat, ∀ st : DrvState,
      SND_startPlay_4PCM_ENV A L SOUND_PCM_CH_AUTO loop st
        = SND_startPlay_4PCM_ENV A L (autoChannel st.statusPlay 4) loop st) ∧
    (∀ A L loop : Nat, ∀ st : DrvState,
      SND_startPlay_2ADPCM A L SOUND_PCM_CH_AUTO loop st
        = SND_startPlay_2ADPCM A L (autoChannel st.statusPlay 2) loop st) :=
  ⟨by decide, by decide, SND_startPlay_4PCM_auto_eq, SND_startPlay_4PCM_ENV_auto_eq,
    SND_startPlay_2ADPCM_auto_eq⟩

/-- C2 witness: on status byte `0b0101` (channels 0 and 2 busy) the selector
resolves to channel 1, the lowest free channel. -/
theorem auto_channel_selection_witness :
    autoChannel 5 4 < 4 ∧ Nat.testBit 5 (autoChannel 5 4) = false ∧
      ∀ j, j < autoChannel 5 4 → Nat.testBit 5 j = true :=
  (auto_channel_selection.1 5 (by decide)).1 ⟨1, by decide, by decide⟩

/-- C3: stopPlay of every PCM-family variant clears the targeted channel's
play bit and loop bit, re-arms the channel's internal parameter bytes with
the address and length of the family's designated null sample (`smp_null` for
the 8-bit PCM variants with shift 8, `smp_null_pcm` for the 4-bit ADPCM
variant with shift 7), and never writes the command byte. -/
theorem stopPlay_null_sample_and_clear :
    (∀ ns : NullSamples, ∀ ch : Nat, ∀ st : DrvState, ch < 4 →
      (SND_stopPlay_4PCM ns ch st).statusPlay.testBit ch = false ∧
      (SND_stopPlay_4PCM ns ch st).statusLoop.testBit ch = false ∧
      (SND_stopPlay_4PCM ns ch st).params (0x10 + ch * 4) = (ns.smp_null_addr >>> 8) % 256 ∧
      (SND_stopPlay_4PCM ns ch st).params (0x10 + ch * 4 + 1) = (ns.smp_null_addr >>> 16) % 256 ∧
      (SND_stopPlay_4PCM ns ch st).params (0x10 + ch * 4 + 2) = (ns.smp_null_size >>> 8) % 256 ∧
      (SND_stopPlay_4PCM ns ch st).params (0x10 + ch * 4 + 3) = (ns.smp_null_size >>> 16) % 256 ∧
      (SND_stopPlay_4PCM ns ch st).command = st.command) ∧
    (∀ ns : NullSamples, ∀ ch : Nat, ∀ st : DrvState, ch < 4 →
      (SND_stopPlay_4PCM_ENV ns ch st).statusPlay.testBit ch = false ∧
      (SND_stopPlay_4PCM_ENV ns ch st).statusLoop.testBit ch = false ∧
      (SND_stopPlay_4PCM_ENV ns ch st).params (0x10 + ch * 4) = (ns.smp_null_addr >>> 8) % 256 ∧
      (SND_stopPlay_4PCM_ENV ns ch st).params (0x10 + ch * 4 + 1) = (ns.smp_null_addr >>> 16) % 256 ∧
      (SND_stopPlay_4PCM_ENV ns ch st).params (0x10 + ch * 4 + 2) = (ns.smp_null_size >>> 8) % 256 ∧
      (SND_stopPlay_4PCM_ENV ns ch st).params (0x10 + ch * 4 + 3) = (ns.smp_null_size >>> 16) % 256 ∧
      (SND_stopPlay_4PCM_ENV ns ch st).command = st.command) ∧
    (∀ ns : NullSamples, ∀ ch : Nat, ∀ st : DrvState, ch < 2 →
      (SND_stopPlay_2ADPCM ns ch st).statusPlay.testBit ch = false ∧
      (SND_stopPlay_2ADPCM ns ch st).statusLoop.testBit ch = false ∧
      (SND_stopPlay_2ADPCM ns ch st).params (0x10 + ch * 4) = (ns.smp_null_pcm_addr >>> 7) % 256 ∧
      (SND_stopPlay_2ADPCM ns ch st).params (0x10 + ch * 4 + 1) = (ns.smp_null_pcm_addr >>> 15) % 256 ∧
      (SND_stopPlay_2ADPCM ns ch st).params (0x10 + ch * 4 + 2) = (ns.smp_null_pcm_size >>> 7) % 256 ∧
      (SND_stopPlay_2ADPCM ns ch st).params (0x10 + ch * 4 + 3) = (ns.smp_null_pcm_size >>> 15) % 256 ∧
      (SND_stopPlay_2ADPCM ns ch st).command = st.command) ∧
    (∀ ns : NullSamples, ∀ st : DrvState,
      (SND_stopPlay_PCM ns st).statusPlay.testBit 0 = false ∧
      (SND_stopPlay_PCM ns st).statusLoop.testBit 0 = false ∧
      (SND_stopPlay_PCM ns st).params (0x10) = (ns.smp_null_addr >>> 8) % 256 ∧
      (SND_stopPlay_PCM ns st).params (0x10 + 1) = (ns.smp_null_addr >>> 16) % 256 ∧
      (SND_stopPlay_PCM ns st).params (0x10 + 2) = (ns.smp_null_size >>> 8) % 256 ∧
      (SND_stopPlay_PCM ns st).params (0x10 + 3) = (ns.smp_null_size >>> 16) % 256 ∧
      (SND_stopPlay_PCM ns st).command = st.command) := by
  refine ⟨?_, ?_, ?_, ?_⟩
  · intro ns ch st hch
    simp only [SND_stopPlay_4PCM, writeParamByte, Z80_DRV_STAT_PLAYING]
    refine ⟨testBit_clearBits_self _ _ (by omega), testBit_clearBits_self _ _ (by omega),
      ?_, ?_, ?_, ?_, trivial⟩ <;> (simp only [storeByte]; split_ifs <;> omega)
  · intro ns ch st hch
    simp only [SND_stopPlay_4PCM_ENV, writeParamByte, Z80_DRV_STAT_PLAYING]
    refine ⟨testBit_clearBits_self _ _ (by omega), testBit_clearBits_self _ _ (by omega),
      ?_, ?_, ?_, ?_, trivial⟩ <;> (simp only [storeByte]; split_ifs <;> omega)
  · intro ns ch st hch
    simp only [SND_stopPlay_2ADPCM, writeParamByte, Z80_DRV_STAT_PLAYING]
    refine ⟨testBit_clearBits_self _ _ (by omega), testBit_clearBits_self _ _ (by omega),
      ?_, ?_, ?_, ?_, trivial⟩ <;> (simp only [storeByte]; split_ifs <;> omega)
  · intro ns st
    have h0 : Z80_DRV_STAT_PLAYING = 1 <<< 0 := rfl
    simp only [SND_stopPlay_PCM, writeParamByte, h0]
    refine ⟨testBit_clearBits_self _ _ (by omega), testBit_clearBits_self _ _ (by omega),
      ?_, ?_, ?_, ?_, trivial⟩ <;> (simp only [storeByte]; norm_num)

/-- C3 witness: stopping channel 2 of the 4PCM driver on a concrete busy
state leaves play and loop bits of the channel clear and the null sample
parameters in place. -/
theorem stopPlay_null_sample_and_clear_witness :
    (SND_stopPlay_4PCM ⟨0x1200, 0x100, 0x2280, 0x80⟩ 2
        { command := 3, statusPlay := 0xFF, statusLoop := 0xFF, params := fun _ => 7 }).statusPlay.testBit 2
      = false ∧
    (SND_stopPlay_4PCM ⟨0x1200, 0x100, 0x2280, 0x80⟩ 2
        { command := 3, statusPlay := 0xFF, statusLoop := 0xFF, params := fun _ => 7 }).params (0x10 + 2 * 4)
      = (0x1200 >>> 8) % 256 :=
  ⟨((stopPlay_null_sample_and_clear.1 ⟨0x1200, 0x100, 0x2280, 0x80⟩ 2 _ (by decide)).1),
   ((stopPlay_null_sample_and_clear.1 ⟨0x1200, 0x100, 0x2280, 0x80⟩ 2 _ (by decide)).2.2.1)⟩

/-- C4 counterexample: starting channel 1 of the 4PCM driver from an all-idle
register window sets the channel's command bit but leaves the channel's play
bit in the status region clear — startPlay does not set the play bit (the
co-processor does, once it consumes the command pulse). -/
theorem startPlay_play_bit_not_set_cex :
    (SND_startPlay_4PCM 0x1200 0x400 1 0 zeroState).statusPlay.testBit 1 = false ∧
    (SND_startPlay_4PCM 0x1200 0x400 1 0 zeroState).command.testBit 1 = true := by decide

/-- C4 (amended): startPlay on an explicitly specified channel of a
PCM-family variant ORs exactly that channel's command bit into the command
byte (that channel's bit becomes set and every other bit of the command byte
is unchanged), records the loop flag in the channel's loop bit of the status
region, and leaves the play bits of the status region unchanged (the play bit
is set by the co-processor, not by startPlay). -/
theorem startPlay_explicit_command_and_loop :
    (∀ A L ch loop : Nat, ∀ st : DrvState, ch < 4 →
      (SND_startPlay_4PCM A L ch loop st).command.testBit ch = true ∧
      (∀ j, j < 8 → j ≠ ch →
        (SND_startPlay_4PCM A L ch loop st).command.testBit j = st.command.testBit j) ∧
      (SND_startPlay_4PCM A L ch loop st).statusPlay = st.statusPlay ∧
      (SND_startPlay_4PCM A L ch loop st).statusLoop.testBit ch = decide (loop ≠ 0)) ∧
    (∀ A L ch loop : Nat, ∀ st : DrvState, ch < 4 →
      (SND_startPlay_4PCM_ENV A L ch loop st).command.testBit ch = true ∧
      (∀ j, j < 8 → j ≠ ch →
        (SND_startPlay_4PCM_ENV A L ch loop st).command.testBit j = st.command.testBit j) ∧
      (SND_startPlay_4PCM_ENV A L ch loop st).statusPlay = st.statusPlay ∧
      (SND_startPlay_4PCM_ENV A L ch loop st).statusLoop.testBit ch = decide (loop ≠ 0)) ∧
    (∀ A L ch loop : Nat, ∀ st : DrvState, ch < 2 →
      (SND_startPlay_2ADPCM A L ch loop st).command.testBit ch = true ∧
      (∀ j, j < 8 → j ≠ ch →
        (SND_startPlay_2ADPCM A L ch loop st).command.testBit j = st.command.testBit j) ∧
      (SND_startPlay_2ADPCM A L ch loop st).statusPlay = st.statusPlay ∧
      (SND_startPlay_2ADPCM A L ch loop st).statusLoop.testBit ch = decide (loop ≠ 0)) ∧
    (∀ A L rate pan loop : Nat, ∀ st : DrvState,
      (SND_startPlay_PCM A L rate pan loop st).command.testBit 0 = true ∧
      (∀ j, j < 8 → j ≠ 0 →
        (SND_startPlay_PCM A L rate pan loop st).command.testBit j = st.command.testBit j) ∧
      (SND_startPlay_PCM A L rate pan loop st).statusPlay = st.statusPlay ∧
      (SND_startPlay_PCM A L rate pan loop st).statusLoop.testBit 0 = decide (loop ≠ 0)) := by
  refine ⟨?_, ?_, ?_, ?_⟩
  · intro A L ch loop st hch
    have hne : ch ≠ SOUND_PCM_CH_AUTO := by simp only [SOUND_PCM_CH_AUTO]; omega
    simp only [SND_startPlay_4PCM, resolveChannel_explicit _ _ _ hne, writeParamByte,
      Z80_DRV_COM_PLAY, Z80_DRV_STAT_PLAYING]
    refine ⟨testBit_setBits_self _ _ (by omega), ?_, trivial, ?_⟩
    · intro j hj hjne
      rw [testBit_setBits_other _ _ _ hj, testBit_one_shiftLeft_ne ch j hjne, Bool.or_false]
    · by_cases hl : loop = 0
      · rw [if_neg (by simp [hl]), testBit_clearBits_self _ _ (show ch < 8 by omega)]
        simp [hl]
      · rw [if_pos hl, testBit_setBits_self _ _ (show ch < 8 by omega)]
        simp [hl]
  · intro A L ch loop st hch
    have hne : ch ≠ SOUND_PCM_CH_AUTO := by simp only [SOUND_PCM_CH_AUTO]; omega
    simp only [SND_startPlay_4PCM_ENV, resolveChannel_explicit _ _ _ hne, writeParamByte,
      Z80_DRV_COM_PLAY, Z80_DRV_STAT_PLAYING]
    refine ⟨testBit_setBits_self _ _ (by omega), ?_, trivial, ?_⟩
    · intro j hj hjne
      rw [testBit_setBits_other _ _ _ hj, testBit_one_shiftLeft_ne ch j hjne, Bool.or_false]
    · by_cases hl : loop = 0
      · rw [if_neg (by simp [hl]), testBit_clearBits_self _ _ (show ch < 8 by omega)]
        simp [hl]
      · rw [if_pos hl, testBit_setBits_self _ _ (show ch < 8 by omega)]
        simp [hl]
  · intro A L ch loop st hch
    have hne : ch ≠ SOUND_PCM_CH_AUTO := by simp only [SOUND_PCM_CH_AUTO]; omega
    simp only [SND_startPlay_2ADPCM, resolveChannel_explicit _ _ _ hne, writeParamByte,
      Z80_DRV_COM_PLAY, Z80_DRV_STAT_PLAYING]
    refine ⟨testBit_setBits_self _ _ (by omega), ?_, trivial, ?_⟩
    · intro j hj hjne
      rw [testBit_setBits_other _ _ _ hj, testBit_one_shiftLeft_ne ch j hjne, Bool.or_false]
    · by_cases hl : loop = 0
      · rw [if_neg (by simp [hl]), testBit_clearBits_self _ _ (show ch < 8 by omega)]
        simp [hl]
      · rw [if_pos hl, testBit_setBits_self _ _ (show ch < 8 by omega)]
        simp [hl]
  · intro A L rate pan loop st
    have e1 : Z80_DRV_COM_PLAY = 1 <<< 0 := rfl
    have e2 : Z80_DRV_STAT_PLAYING = 1 <<< 0 := rfl
    simp only [SND_startPlay_PCM, writeParamByte, e1, e2]
    refine ⟨testBit_setBits_self _ _ (by omega), ?_, trivial, ?_⟩
    · intro j hj hjne
      rw [testBit_setBits_other _ _ _ hj, testBit_one_shiftLeft_ne 0 j hjne, Bool.or_false]
    · by_cases hl : loop = 0
      · rw [if_neg (by simp [hl]), testBit_clearBits_self _ 0 (by omega)]
        simp [hl]
      · rw [if_pos hl, testBit_setBits_self _ 0 (by omega)]
        simp [hl]

/-- C4 (amended) witness: a concrete looping start on channel 3 of the 4PCM
driver from a busy state: channel 3's command bit turns on, channel 0's
pending command bit and the play bits are untouched. -/
theorem startPlay_explicit_command_and_loop_witness :
    (SND_startPlay_4PCM 0x3400 0x800 3 1
        { command := 1, statusPlay := 5, statusLoop := 4, params := fun _ => 9 }).command.testBit 3
        = true ∧
    (SND_startPlay_4PCM 0x3400 0x800 3 1
        { command := 1, statusPlay := 5, statusLoop := 4, params := fun _ => 9 }).command.testBit 0
        = Nat.testBit 1 0 ∧
    (SND_startPlay_4PCM 0x3400 0x800 3 1
        { command := 1, statusPlay := 5, statusLoop := 4, params := fun _ => 9 }).statusPlay
        = (5 : Nat) :=
  ⟨(startPlay_explicit_command_and_loop.1 0x3400 0x800 3 1 _ (by decide)).1,
   (startPlay_explicit_command_and_loop.1 0x3400 0x800 3 1 _ (by decide)).2.1 0
     (by decide) (by decide),
   (startPlay_explicit_command_and_loop.1 0x3400 0x800 3 1 _ (by decide)).2.2.1⟩

/-- C6: On the 4-channel variants, stopPlay of channel `ch` leaves the play
bit, loop bit, start-area parameter bytes, and internal parameter bytes of
every other channel unchanged. -/
theorem stopPlay_frame_other_channels :
    (∀ ns : NullSamples, ∀ ch c2 i : Nat, ∀ st : DrvState,
      ch < 4 → c2 < 4 → c2 ≠ ch → i < 4 →
      (SND_stopPlay_4PCM ns ch st).statusPlay.testBit c2 = st.statusPlay.testBit c2 ∧
      (SND_stopPlay_4PCM ns ch st).statusLoop.testBit c2 = st.statusLoop.testBit c2 ∧
      (SND_stopPlay_4PCM ns ch st).params (c2 * 4 + i) = st.params (c2 * 4 + i) ∧
      (SND_stopPlay_4PCM ns ch st).params (0x10 + c2 * 4 + i) = st.params (0x10 + c2 * 4 + i)) ∧
    (∀ ns : NullSamples, ∀ ch c2 i : Nat, ∀ st : DrvState,
      ch < 4 → c2 < 4 → c2 ≠ ch → i < 4 →
      (SND_stopPlay_4PCM_ENV ns ch st).statusPlay.testBit c2 = st.statusPlay.testBit c2 ∧
      (SND_stopPlay_4PCM_ENV ns ch st).statusLoop.testBit c2 = st.statusLoop.testBit c2 ∧
      (SND_stopPlay_4PCM_ENV ns ch st).params (c2 * 4 + i) = st.params (c2 * 4 + i) ∧
      (SND_stopPlay_4PCM_ENV ns ch st).params (0x10 + c2 * 4 + i)
        = st.params (0x10 + c2 * 4 + i)) := by
  constructor
  · intro ns ch c2 i st hch hc2 hne hi
    have hbit : (Z80_DRV_STAT_PLAYING <<< ch).testBit c2 = false := by
      simp only [Z80_DRV_STAT_PLAYING]
      exact testBit_one_shiftLeft_ne ch c2 hne
    simp only [SND_stopPlay_4PCM, writeParamByte]
    refine ⟨testBit_clearBits_other _ _ _ (by omega) hbit,
      testBit_clearBits_other _ _ _ (by omega) hbit, ?_, ?_⟩ <;>
      (simp only [storeByte]; split_ifs <;> omega)
  · intro ns ch c2 i st hch hc2 hne hi
    have hbit : (Z80_DRV_STAT_PLAYING <<< ch).testBit c2 = false := by
      simp only [Z80_DRV_STAT_PLAYING]
      exact testBit_one_shiftLeft_ne ch c2 hne
    simp only [SND_stopPlay_4PCM_ENV, writeParamByte]
    refine ⟨testBit_clearBits_other _ _ _ (by omega) hbit,
      testBit_clearBits_other _ _ _ (by omega) hbit, ?_, ?_⟩ <;>
      (simp only [storeByte]; split_ifs <;> omega)

/-- C6 witness: with channels 0 and 2 playing, stopping channel 1 leaves
channel 2's play bit and parameter bytes as they were. -/
theorem stopPlay_frame_other_channels_witness :
    (SND_stopPlay_4PCM ⟨0x1200, 0x100, 0x2280, 0x80⟩ 1
        { command := 0, statusPlay := 5, statusLoop := 1, params := fun _ => 7 }).statusPlay.testBit 2
      = Nat.testBit 5 2 ∧
    (SND_stopPlay_4PCM ⟨0x1200, 0x100, 0x2280, 0x80⟩ 1
        { command := 0, statusPlay := 5, statusLoop := 1, params := fun _ => 7 }).params (2 * 4 + 3)
      = (7 : Nat) :=
  ⟨(stopPlay_frame_other_channels.1 ⟨0x1200, 0x100, 0x2280, 0x80⟩ 1 2 3 _
      (by decide) (by decide) (by decide) (by decide)).1,
   (stopPlay_frame_other_channels.1 ⟨0x1200, 0x100, 0x2280, 0x80⟩ 1 2 3 _
      (by decide) (by decide) (by decide) (by decide)).2.2.1⟩

theorem and_fifteen_eq_mod (v : Nat) : v &&& 15 = v % 16 := by
  have e15 : (15 : Nat) = 2 ^ 4 - 1 := rfl
  have e16 : (16 : Nat) = 2 ^ 4 := rfl
  apply Nat.eq_of_testBit_eq
  intro i
  rw [Nat.testBit_and, e15, Nat.testBit_two_pow_sub_one, e16, Nat.testBit_mod_two_pow,
    Bool.and_comm]

/-- C7: For the envelope variant, setVolume followed by getVolume on the same
channel returns exactly the value set for every volume 0-15; for every volume
value, setVolume stores only its low 4 bits (`volume % 16`) in the channel's
volume byte, ignoring the high bits rather than rejecting them. -/
theorem volume_set_get_roundtrip :
    ∀ ch v : Nat, ∀ st : DrvState,
      SND_getVolume_4PCM_ENV ch (SND_setVolume_4PCM_ENV ch v st) = v % 16 ∧
      (v < 16 → SND_getVolume_4PCM_ENV ch (SND_setVolume_4PCM_ENV ch v st) = v) ∧
      (SND_setVolume_4PCM_ENV ch v st).params (0x20 + ch) = v % 16 := by
  intro ch v st
  have hstored : (SND_setVolume_4PCM_ENV ch v st).params (0x20 + ch) = v % 16 := by
    simp only [SND_setVolume_4PCM_ENV, writeParamByte, storeByte, eq_self_iff_true, if_true]
    rw [and_fifteen_eq_mod]
    omega
  have hget : SND_getVolume_4PCM_ENV ch (SND_setVolume_4PCM_ENV ch v st) = v % 16 := by
    rw [SND_getVolume_4PCM_ENV, hstored, and_fifteen_eq_mod]
    omega
  exact ⟨hget, fun hv => by rw [hget]; omega, hstored⟩

/-- C7 witness: volume 0x2B on channel 1 is stored and read back as 0xB. -/
theorem volume_set_get_roundtrip_witness :
    SND_getVolume_4PCM_ENV 1 (SND_setVolume_4PCM_ENV 1 0x2B zeroState) = 0x2B % 16 :=
  (volume_set_get_roundtrip 1 0x2B zeroState).1

theorem testBit_setBits_mono (b m j : Nat) (hb : b < 256) (h : b.testBit j = true) :
    (setBits b m).testBit j = true := by
  have hj : j < 8 := by
    by_contra hj
    have hlt : b < 2 ^ j :=
      calc b < 256 := hb
        _ = 2 ^ 8 := rfl
        _ ≤ 2 ^ j := Nat.pow_le_pow_right (by norm_num) (by omega)
    rw [Nat.testBit_lt_two_pow hlt] at h
    exact absurd h (by simp)
  rw [testBit_setBits_other _ _ _ hj, h, Bool.true_or]

/-- C10: startPlay of every PCM-family variant writes the command byte only
by ORing in the selected channel's command bit: every command bit already set
(for any channel) is still set after the call, for any channel argument
including the automatic selector — startPlay never clears a command bit. -/
theorem startPlay_command_or_monotone :
    ∀ st : DrvState, st.command < 256 → ∀ j : Nat, st.command.testBit j = true →
      (∀ A L ch loop : Nat,
        (SND_startPlay_4PCM A L ch loop st).command.testBit j = true) ∧
      (∀ A L ch loop : Nat,
        (SND_startPlay_4PCM_ENV A L ch loop st).command.testBit j = true) ∧
      (∀ A L ch loop : Nat,
        (SND_startPlay_2ADPCM A L ch loop st).command.testBit j = true) ∧
      (∀ A L rate pan loop : Nat,
        (SND_startPlay_PCM A L rate pan loop st).command.testBit j = true) := by
  intro st hcmd j hj
  refine ⟨?_, ?_, ?_, ?_⟩
  · intro A L ch loop
    simp only [SND_startPlay_4PCM, writeParamByte]
    exact testBit_setBits_mono _ _ _ hcmd hj
  · intro A L ch loop
    simp only [SND_startPlay_4PCM_ENV, writeParamByte]
    exact testBit_setBits_mono _ _ _ hcmd hj
  · intro A L ch loop
    simp only [SND_startPlay_2ADPCM, writeParamByte]
    exact testBit_setBits_mono _ _ _ hcmd hj
  · intro A L rate pan loop
    simp only [SND_startPlay_PCM, writeParamByte]
    exact testBit_setBits_mono _ _ _ hcmd hj

/-- C10 witness: starting channel 0 while channel 3's command bit is pending
keeps channel 3's bit set. -/
theorem startPlay_command_or_monotone_witness :
    (SND_startPlay_4PCM 0x1200 0x400 0 0
        { command := 8, statusPlay := 0, statusLoop := 0, params := fun _ => 0 }).command.testBit 3
      = true :=
  (startPlay_command_or_monotone
    { command := 8, statusPlay := 0, statusLoop := 0, params := fun _ => 0 }
    (by decide) 3 (by decide)).1 0x1200 0x400 0 0

/-- C9: `SND_startPlay_TFM` writes only three distinct offsets of the
four-byte song-address field: bits 0-7 go to offset 0, bits 8-15 to offset 1,
bits 16-23 to offset 2, and offset 0 is then overwritten with bits 24-31, so
offset 3 is never written and after the call the low 8 bits of the song
address are not stored anywhere in the block (two addresses that agree above
bit 7 produce identical parameter blocks). -/
theorem SND_startPlay_TFM_layout :
    ∀ A : Nat, ∀ m : Nat → Nat,
      (SND_startPlay_TFM_writes A).map Prod.fst = [0, 1, 2, 0] ∧
      (SND_startPlay_TFM_writes A).map Prod.snd
        = [A >>> 0, A >>> 8, A >>> 16, A >>> 24] ∧
      SND_startPlay_TFM A m 0 = (A >>> 24) % 256 ∧
      SND_startPlay_TFM A m 1 = (A >>> 8) % 256 ∧
      SND_startPlay_TFM A m 2 = (A >>> 16) % 256 ∧
      SND_startPlay_TFM A m 3 = m 3 ∧
      (∀ B : Nat, A / 256 = B / 256 →
        ∀ i : Nat, SND_startPlay_TFM A m i = SND_startPlay_TFM B m i) := by
  intro A m
  refine ⟨rfl, rfl, ?_, ?_, ?_, ?_, ?_⟩
  · simp only [SND_startPlay_TFM, SND_startPlay_TFM_writes, List.foldl, storeByte]
    norm_num
  · simp only [SND_startPlay_TFM, SND_startPlay_TFM_writes, List.foldl, storeByte]
    norm_num
  · simp only [SND_startPlay_TFM, SND_startPlay_TFM_writes, List.foldl, storeByte]
    norm_num
  · simp only [SND_startPlay_TFM, SND_startPlay_TFM_writes, List.foldl, storeByte]
    norm_num
  · intro B hAB i
    have h8 : A >>> 8 = B >>> 8 := by omega
    have h16 : A >>> 16 = B >>> 16 := by omega
    have h24 : A >>> 24 = B >>> 24 := by omega
    simp only [SND_startPlay_TFM, SND_startPlay_TFM_writes, List.foldl, storeByte]
    by_cases h0 : i = 0
    · simp [h0, h24]
    · by_cases h1 : i = 1
      · simp [h1, h8]
      · by_cases h2 : i = 2
        · simp [h2, h16]
        · simp [h0, h1, h2]

/-- C9 witness: two song addresses that differ only in their low 8 bits
produce the same stored byte at offset 1. -/
theorem SND_startPlay_TFM_layout_witness :
    SND_startPlay_TFM 0x123456 (fun _ => 0) 1 = SND_startPlay_TFM 0x1234AB (fun _ => 0) 1 :=
  (SND_startPlay_TFM_layout 0x123456 (fun _ => 0)).2.2.2.2.2.2 0x1234AB (by decide) 1

/-! ## Operation call traces

For the temporal claim about the shared three-phase protocol, every public
operation is abstracted to its sequence of collaborator calls and register
window accesses, transcribed in source order: `Z80_loadDriver` (with driver
id and waitReady flag), `Z80_requestBus(1)`, one `regAccess` per C statement
that reads or writes the shared register window, `Z80_releaseBus`, and the
`Z80_startReset` / `Z80_endReset` pair used by the TFM variant. -/

/-- A collaborator call or register-window access performed by an operation. -/
inductive Ev where
  | load (driver : Nat) (waitReady : Nat)
  | reqBus
  | regAccess
  | relBus
  | startReset
  | endReset
deriving DecidableEq, Repr

/-- Call trace of `SND_isPlaying_PCM`: load, request, one status read, release. -/
def SND_isPlaying_PCM_trace : List Ev :=
  [Ev.load Z80_DRIVER_PCM 1, Ev.reqBus, Ev.regAccess, Ev.relBus]

/-- Call trace of `SND_startPlay_PCM`: load, request, six parameter writes,
command OR, loop-bit update, release. -/
def SND_startPlay_PCM_trace : List Ev :=
  [Ev.load Z80_DRIVER_PCM 1, Ev.reqBus, Ev.regAccess, Ev.regAccess, Ev.regAccess,
   Ev.regAccess, Ev.regAccess, Ev.regAccess, Ev.regAccess, Ev.regAccess, Ev.relBus]

/-- Call trace of `SND_stopPlay_PCM`: load, request, four parameter writes,
two status clears, release. -/
def SND_stopPlay_PCM_trace : List Ev :=
  [Ev.load Z80_DRIVER_PCM 1, Ev.reqBus, Ev.regAccess, Ev.regAccess, Ev.regAccess,
   Ev.regAccess, Ev.regAccess, Ev.regAccess, Ev.relBus]

/-- Call trace of `SND_isPlaying_2ADPCM`. -/
def SND_isPlaying_2ADPCM_trace : List Ev :=
  [Ev.load Z80_DRIVER_2ADPCM 1, Ev.reqBus, Ev.regAccess, Ev.relBus]

/-- Call trace of `SND_startPlay_2ADPCM`: load, request, status read, four
parameter writes, command OR, loop-bit update, release. -/
def SND_startPlay_2ADPCM_trace : List Ev :=
  [Ev.load Z80_DRIVER_2ADPCM 1, Ev.reqBus, Ev.regAccess, Ev.regAccess, Ev.regAccess,
   Ev.regAccess, Ev.regAccess, Ev.regAccess, Ev.regAccess, Ev.relBus]

/-- Call trace of `SND_stopPlay_2ADPCM`. -/
def SND_stopPlay_2ADPCM_trace : List Ev :=
  [Ev.load Z80_DRIVER_2ADPCM 1, Ev.reqBus, Ev.regAccess, Ev.regAccess, Ev.regAccess,
   Ev.regAccess, Ev.regAccess, Ev.regAccess, Ev.relBus]

/-- Call trace of `SND_isPlaying_4PCM`. -/
def SND_isPlaying_4PCM_trace : List Ev :=
  [Ev.load Z80_DRIVER_4PCM 1, Ev.reqBus, Ev.regAccess, Ev.relBus]

/-- Call trace of `SND_startPlay_4PCM`. -/
def SND_startPlay_4PCM_trace : List Ev :=
  [Ev.load Z80_DRIVER_4PCM 1, Ev.reqBus, Ev.regAccess, Ev.regAccess, Ev.regAccess,
   Ev.regAccess, Ev.regAccess, Ev.regAccess, Ev.regAccess, Ev.relBus]

/-- Call trace of `SND_stopPlay_4PCM`. -/
def SND_stopPlay_4PCM_trace : List Ev :=
  [Ev.load Z80_DRIVER_4PCM 1, Ev.reqBus, Ev.regAccess, Ev.regAccess, Ev.regAccess,
   Ev.regAccess, Ev.regAccess, Ev.regAccess, Ev.relBus]

/-- Call trace of `SND_isPlaying_4PCM_ENV`. -/
def SND_isPlaying_4PCM_ENV_trace : List Ev :=
  [Ev.load Z80_DRIVER_4PCM_ENV 1, Ev.reqBus, Ev.regAccess, Ev.relBus]

/-- Call trace of `SND_startPlay_4PCM_ENV`. -/
def SND_startPlay_4PCM_ENV_trace : List Ev :=
  [Ev.load Z80_DRIVER_4PCM_ENV 1, Ev.reqBus, Ev.regAccess, Ev.regAccess, Ev.regAccess,
   Ev.regAccess, Ev.regAccess, Ev.regAccess, Ev.regAccess, Ev.relBus]

/-- Call trace of `SND_stopPlay_4PCM_ENV`. -/
def SND_stopPlay_4PCM_ENV_trace : List Ev :=
  [Ev.load Z80_DRIVER_4PCM_ENV 1, Ev.reqBus, Ev.regAccess, Ev.regAccess, Ev.regAccess,
   Ev.regAccess, Ev.regAccess, Ev.regAccess, Ev.relBus]

/-- Call trace of `SND_setVolume_4PCM_ENV`: load, request, one volume write,
release. -/
def SND_setVolume_4PCM_ENV_trace : List Ev :=
  [Ev.load Z80_DRIVER_4PCM_ENV 1, Ev.reqBus, Ev.regAccess, Ev.relBus]

/-- Call trace of `SND_getVolume_4PCM_ENV`: load, request, one volume read,
release. -/
def SND_getVolume_4PCM_ENV_trace : List Ev :=
  [Ev.load Z80_DRIVER_4PCM_ENV 1, Ev.reqBus, Ev.regAccess, Ev.relBus]

/-- Call trace of `SND_isPlaying_MVS`. -/
def SND_isPlaying_MVS_trace : List Ev :=
  [Ev.load Z80_DRIVER_MVS 0, Ev.reqBus, Ev.regAccess, Ev.relBus]

/-- Call trace of `SND_startPlay_MVS`: load, request, three song-address
writes, one play-mode write, release. -/
def SND_startPlay_MVS_trace : List Ev :=
  [Ev.load Z80_DRIVER_MVS 0, Ev.reqBus, Ev.regAccess, Ev.regAccess, Ev.regAccess,
   Ev.regAccess, Ev.relBus]

/-- Call trace of `SND_stopPlay_MVS`: load, request, one command write,
release. -/
def SND_stopPlay_MVS_trace : List Ev :=
  [Ev.load Z80_DRIVER_MVS 0, Ev.reqBus, Ev.regAccess, Ev.relBus]

/-- Call trace of `SND_startPlay_TFM`: request, four song-address writes,
release, and only then the driver load followed by the Z80 reset pulse (the
source comment: load the driver after the song address is set). -/
def SND_startPlay_TFM_trace : List Ev :=
  [Ev.reqBus, Ev.regAccess, Ev.regAccess, Ev.regAccess, Ev.regAccess, Ev.relBus,
   Ev.load Z80_DRIVER_TFM 0, Ev.startReset, Ev.endReset]

/-- All public operations of all driver variants in the sound unit. -/
def allOpTraces : List (List Ev) :=
  [SND_isPlaying_PCM_trace, SND_startPlay_PCM_trace, SND_stopPlay_PCM_trace,
   SND_isPlaying_2ADPCM_trace, SND_startPlay_2ADPCM_trace, SND_stopPlay_2ADPCM_trace,
   SND_isPlaying_4PCM_trace, SND_startPlay_4PCM_trace, SND_stopPlay_4PCM_trace,
   SND_isPlaying_4PCM_ENV_trace, SND_startPlay_4PCM_ENV_trace, SND_stopPlay_4PCM_ENV_trace,
   SND_setVolume_4PCM_ENV_trace, SND_getVolume_4PCM_ENV_trace,
   SND_isPlaying_MVS_trace, SND_startPlay_MVS_trace, SND_stopPlay_MVS_trace,
   SND_startPlay_TFM_trace]

/-- The middle and final phases of the spec's protocol: zero or more register
accesses followed by exactly one unconditional bus release. -/
def busPhase : List Ev → Bool
  | [Ev.relBus] => true
  | Ev.regAccess :: t => busPhase t
  | _ => false

/-- The spec's fixed operation order: first a driver load, then a bus
request, then only register accesses, then the bus release. -/
def followsProtocol : List Ev → Bool
  | Ev.load _ _ :: Ev.reqBus :: rest => busPhase rest
  | _ => false

/-- C5 counterexample: `SND_startPlay_TFM` is a public operation whose trace
does not follow the load-first three-phase protocol (it requests the bus and
writes the song address before loading the driver). -/
theorem protocol_order_cex :
    followsProtocol SND_startPlay_TFM_trace = false ∧
    SND_startPlay_TFM_trace ∈ allOpTraces := by decide

/-- C5 (amended): every public operation except `SND_startPlay_TFM` follows
the fixed order load driver → acquire bus → register accesses → release bus,
releasing the bus unconditionally; `SND_startPlay_TFM` instead acquires the
bus, writes the song address, releases the bus, and only then loads the TFM
driver and pulses the Z80 reset, because that firmware latches its start
parameters at load time. -/
theorem protocol_order_amended :
    (∀ t, t ∈ allOpTraces → t ≠ SND_startPlay_TFM_trace → followsProtocol t = true) ∧
    SND_startPlay_TFM_trace =
      [Ev.reqBus, Ev.regAccess, Ev.regAccess, Ev.regAccess, Ev.regAccess, Ev.relBus,
       Ev.load Z80_DRIVER_TFM 0, Ev.startReset, Ev.endReset] :=
  ⟨by decide, rfl⟩

/-- C5 (amended) witness: the single-channel PCM status query follows the
protocol. -/
theorem protocol_order_amended_witness :
    followsProtocol SND_isPlaying_PCM_trace = true :=
  protocol_order_amended.1 SND_isPlaying_PCM_trace (by decide) (by decide)

/-! ## SoundUtil (host-side WAV preparation)

`SoundUtil.getRawDataFromWAV` opens a WAV stream, asks the platform audio
system for a converted stream, and reads it 256 bytes at a time.  The
platform audio system (`javax.sound.sampled.AudioSystem`) is an external
collaborator, modelled as a parameter: its conversion-support predicate and
its converter.  The opened input streams are modelled by flags recording
whether they have been closed when the call finishes. -/

/-- The fields of `javax.sound.sampled.AudioFormat` used by `SoundUtil`
(constructor order: encoding, sample rate, sample size in bits, channels,
frame size, frame rate, big-endian). -/
structure AudioFormat where
  encodingSigned : Bool
  sampleRate : Int
  sampleSizeInBits : Nat
  channels : Nat
  frameSize : Nat
  frameRate : Int
  bigEndian : Bool
deriving DecidableEq

/-- The platform audio system: which conversions it supports, and the
converted stream it produces for a source stream. -/
structure AudioSystemM where
  isConversionSupported : AudioFormat → AudioFormat → Bool
  convertStream : AudioFormat → List Nat → List Nat

/-- The destination `AudioFormat` built inside `SoundUtil.resample`:
mono forces one channel, a non-positive requested rate falls back to the
input rate, frame size is `((bits + 7) / 8) * channel`. -/
def dstFormatOf (fmtIn : AudioFormat) (bits : Nat) (rate : Int)
    (mono signed bigEndian : Bool) : AudioFormat :=
  let channel := if mono then 1 else fmtIn.channels
  let adjRate := if rate ≤ 0 then fmtIn.sampleRate else rate
  ⟨signed, adjRate, bits, channel, ((bits + 7) / 8) * channel, adjRate, bigEndian⟩

/-- `SoundUtil.resample`: returns the converted stream, or `none` when the
platform does not support the requested conversion (Java returns `null`). -/
def resample (sys : AudioSystemM) (fmtIn : AudioFormat) (dataIn : List Nat)
    (bits : Nat) (rate : Int) (mono signed bigEndian : Bool) : Option (List Nat) :=
  if ¬ sys.isConversionSupported (dstFormatOf fmtIn bits rate mono signed bigEndian) fmtIn then
    none
  else
    some (sys.convertStream (dstFormatOf fmtIn bits rate mono signed bigEndian) dataIn)

/-- The fixed read buffer `new byte[128 * 1024 * 1024]` allocated by
`getRawDataFromWAV` (the source comment: we will never need more than 128MB
sample). -/
def wavReadBufferSize : Nat := 128 * 1024 * 1024

/-- The errors `SoundUtil` can raise: `UnsupportedAudioFileException` from
the unsupported-conversion check, and `IndexOutOfBoundsException` from
`read(result, off, 256)` when the converted data does not fit in the fixed
128 MiB buffer. -/
inductive SoundErr where
  | unsupportedAudioFile (msg : String)
  | indexOutOfBounds
deriving DecidableEq

/-- The 256-bytes-at-a-time read loop of `getRawDataFromWAV`, with the number
of remaining iterations as fuel (each round consumes at least one byte of a
non-empty stream, so `stream.length` rounds always suffice).  `off` is the
write offset into the fixed buffer; storing the bytes delivered by a read
past the end of the buffer raises `IndexOutOfBoundsException`. -/
def readLoop : Nat → Nat → List Nat → Except SoundErr (List Nat)
  | 0, _, _ => Except.ok []
  | fuel + 1, off, stream =>
      if stream.isEmpty then Except.ok []
      else if wavReadBufferSize < off + (stream.take 256).length then
        Except.error SoundErr.indexOutOfBounds
      else
        match readLoop fuel (off + (stream.take 256).length) (stream.drop 256) with
        | Except.ok rest => Except.ok (stream.take 256 ++ rest)
        | Except.error e => Except.error e

/-- The contents accumulated by the read loop from buffer offset 0: the whole
stream when it fits the 128 MiB buffer, `IndexOutOfBoundsException` when it
does not. -/
def readChunks (stream : List Nat) : Except SoundErr (List Nat) :=
  readLoop stream.length 0 stream

theorem readLoop_fits : ∀ fuel off : Nat, ∀ s : List Nat,
    s.length ≤ fuel → off + s.length ≤ wavReadBufferSize →
    readLoop fuel off s = Except.ok s := by
  intro fuel
  induction fuel with
  | zero =>
      intro off s h hB
      have hnil : s = [] := List.eq_nil_of_length_eq_zero (by omega)
      simp [hnil, readLoop]
  | succ n ih =>
      intro off s h hB
      rw [readLoop]
      by_cases he : s.isEmpty
      · rw [if_pos he]
        exact congrArg Except.ok (List.isEmpty_iff.mp he).symm
      · have hlen : (s.take 256).length = min 256 s.length := List.length_take 256 s
        rw [if_neg he, if_neg (by omega),
          ih (off + (s.take 256).length) (s.drop 256) (by simp; omega) (by simp [hlen]; omega)]
        simp [List.take_append_drop]

theorem readLoop_overflow : ∀ fuel off : Nat, ∀ s : List Nat,
    s.length ≤ fuel → 0 < s.length → wavReadBufferSize < off + s.length →
    readLoop fuel off s = Except.error SoundErr.indexOutOfBounds := by
  intro fuel
  induction fuel with
  | zero => intro off s h h0 hB; omega
  | succ n ih =>
      intro off s h h0 hB
      have hne : ¬ s.isEmpty = true := by
        rw [List.isEmpty_iff]
        intro hnil
        rw [hnil] at h0
        simp at h0
      have hlen : (s.take 256).length = min 256 s.length := List.length_take 256 s
      rw [readLoop, if_neg hne]
      by_cases hov : wavReadBufferSize < off + (s.take 256).length
      · rw [if_pos hov]
      · have h256 : 256 < s.length := by omega
        rw [if_neg hov,
          ih (off + (s.take 256).length) (s.drop 256) (by simp; omega) (by simp; omega)
            (by simp [hlen]; omega)]

theorem readChunks_fits (s : List Nat) (h : s.length ≤ wavReadBufferSize) :
    readChunks s = Except.ok s :=
  readLoop_fits s.length 0 s le_rfl (by omega)

theorem readChunks_overflow (s : List Nat) (h : wavReadBufferSize < s.length) :
    readChunks s = Except.error SoundErr.indexOutOfBounds :=
  readLoop_overflow s.length 0 s le_rfl (by have := wavReadBufferSize; omega) (by omega)

/-- Outcome of a `getRawDataFromWAV` call: the returned bytes or the raised
exception, whether each of the two opened streams has been closed when the
call finishes, and how many times `resample` was invoked. -/
structure WavCall where
  result : Except SoundErr (List Nat)
  wavInputClosed : Bool
  resampledInputClosed : Bool
  resampleCalls : Nat

/-- `SoundUtil.getRawDataFromWAV`: open the WAV stream, call `resample`
once; when the conversion is unsupported (`resampledInput == null`) close the
WAV input stream and throw `UnsupportedAudioFileException`; otherwise read
the converted stream into the fixed 128 MiB buffer, close both streams (the
`finally` block runs on the normal path and when the read loop throws
`IndexOutOfBoundsException`) and return the bytes read. -/
def getRawDataFromWAV (sys : AudioSystemM) (wavFormat : AudioFormat) (wavData : List Nat)
    (bits : Nat) (rate : Int) (mono signed bigEndian : Bool) : WavCall :=
  match resample sys wavFormat wavData bits rate mono signed bigEndian with
  | none =>
      { result := Except.error
          (SoundErr.unsupportedAudioFile "Error: could not resample WAV file."),
        wavInputClosed := true, resampledInputClosed := false, resampleCalls := 1 }
  | some converted =>
      match readChunks converted with
      | Except.ok bytes =>
          { result := Except.ok bytes,
            wavInputClosed := true, resampledInputClosed := true, resampleCalls := 1 }
      | Except.error e =>
          { result := Except.error e,
            wavInputClosed := true, resampledInputClosed := true, resampleCalls := 1 }

theorem getRawDataFromWAV_overflow_result
    (sys : AudioSystemM) (fmtIn : AudioFormat) (dataIn : List Nat) (bits : Nat)
    (rate : Int) (mono signed bigEndian : Bool)
    (h : sys.isConversionSupported (dstFormatOf fmtIn bits rate mono signed bigEndian) fmtIn
      = true)
    (hov : wavReadBufferSize
      < (sys.convertStream (dstFormatOf fmtIn bits rate mono signed bigEndian) dataIn).length) :
    (getRawDataFromWAV sys fmtIn dataIn bits rate mono signed bigEndian).result
        = Except.error SoundErr.indexOutOfBounds ∧
    (getRawDataFromWAV sys fmtIn dataIn bits rate mono signed bigEndian).wavInputClosed
        = true ∧
    (getRawDataFromWAV sys fmtIn dataIn bits rate mono signed bigEndian).resampledInputClosed
        = true := by
  simp [getRawDataFromWAV, resample, h, readChunks_overflow _ hov]

/-- C8 counterexample: a supported conversion whose converted stream is one
byte larger than the fixed 128 MiB buffer does not return normally - the read
loop raises `IndexOutOfBoundsException`. -/
theorem getRawDataFromWAV_overflow_cex :
    (getRawDataFromWAV
        ⟨fun _ _ => true, fun _ _ => List.replicate (wavReadBufferSize + 1) 0⟩
        ⟨true, 44100, 16, 2, 4, 44100, false⟩ [] 8 0 true true false).result
      = Except.error SoundErr.indexOutOfBounds := by
  have hov : wavReadBufferSize < (List.replicate (wavReadBufferSize + 1) (0 : Nat)).length := by
    rw [List.length_replicate]
    exact Nat.lt_succ_self _
  exact (getRawDataFromWAV_overflow_result
    ⟨fun _ _ => true, fun _ _ => List.replicate (wavReadBufferSize + 1) 0⟩
    ⟨true, 44100, 16, 2, 4, 44100, false⟩ [] 8 0 true true false rfl hov).1

/-- C8 (amended): when the requested format/rate conversion is not supported,
`getRawDataFromWAV` raises the unsupported-conversion error as a hard failure
(no retry: `resample` is invoked exactly once) with the already-opened WAV
input stream closed before the error propagates; for every supported
conversion whose converted data fits the fixed 128 MiB read buffer it returns
normally with the converted bytes, closing both streams; a supported
conversion whose converted data exceeds the buffer raises
`IndexOutOfBoundsException` instead, with both streams closed by the
`finally` block. -/
theorem getRawDataFromWAV_error_handling :
    ∀ (sys : AudioSystemM) (fmtIn : AudioFormat) (dataIn : List Nat) (bits : Nat)
      (rate : Int) (mono signed bigEndian : Bool),
      (sys.isConversionSupported (dstFormatOf fmtIn bits rate mono signed bigEndian) fmtIn
          = false →
        (getRawDataFromWAV sys fmtIn dataIn bits rate mono signed bigEndian).result
          = Except.error
              (SoundErr.unsupportedAudioFile "Error: could not resample WAV file.") ∧
        (getRawDataFromWAV sys fmtIn dataIn bits rate mono signed bigEndian).wavInputClosed
          = true ∧
        (getRawDataFromWAV sys fmtIn dataIn bits rate mono signed bigEndian).resampleCalls
          = 1) ∧
      (sys.isConversionSupported (dstFormatOf fmtIn bits rate mono signed bigEndian) fmtIn
          = true →
        (sys.convertStream (dstFormatOf fmtIn bits rate mono signed bigEndian) dataIn).length
            ≤ wavReadBufferSize →
        (getRawDataFromWAV sys fmtIn dataIn bits rate mono signed bigEndian).result
          = Except.ok
              (sys.convertStream (dstFormatOf fmtIn bits rate mono signed bigEndian) dataIn) ∧
        (getRawDataFromWAV sys fmtIn dataIn bits rate mono signed bigEndian).wavInputClosed
          = true ∧
        (getRawDataFromWAV sys fmtIn dataIn bits rate mono signed bigEndian).resampledInputClosed
          = true ∧
        (getRawDataFromWAV sys fmtIn dataIn bits rate mono signed bigEndian).resampleCalls
          = 1) ∧
      (sys.isConversionSupported (dstFormatOf fmtIn bits rate mono signed bigEndian) fmtIn
          = true →
        wavReadBufferSize
            < (sys.convertStream (dstFormatOf fmtIn bits rate mono signed bigEndian) dataIn).length →
        (getRawDataFromWAV sys fmtIn dataIn bits rate mono signed bigEndian).result
          = Except.error SoundErr.indexOutOfBounds ∧
        (getRawDataFromWAV sys fmtIn dataIn bits rate mono signed bigEndian).wavInputClosed
          = true ∧
        (getRawDataFromWAV sys fmtIn dataIn bits rate mono signed bigEndian).resampledInputClosed
          = true) := by
  intro sys fmtIn dataIn bits rate mono signed bigEndian
  refine ⟨?_, ?_, ?_⟩
  · intro h
    simp [getRawDataFromWAV, resample, h]
  · intro h hfit
    simp [getRawDataFromWAV, resample, h, readChunks_fits _ hfit]
  · intro h hov
    exact getRawDataFromWAV_overflow_result sys fmtIn dataIn bits rate mono signed bigEndian h hov

/-- C8 (amended) witness: a platform supporting no conversion at all makes
the call fail with the unsupported-conversion error while the WAV stream is
closed. -/
theorem getRawDataFromWAV_error_handling_witness :
    (getRawDataFromWAV ⟨fun _ _ => false, fun _ d => d⟩
        ⟨true, 44100, 16, 2, 4, 44100, false⟩ [1, 2, 3] 8 0 true true false).result
      = Except.error (SoundErr.unsupportedAudioFile "Error: could not resample WAV file.") ∧
    (getRawDataFromWAV ⟨fun _ _ => false, fun _ d => d⟩
        ⟨true, 44100, 16, 2, 4, 44100, false⟩ [1, 2, 3] 8 0 true true false).wavInputClosed
      = true :=
  ⟨((getRawDataFromWAV_error_handling ⟨fun _ _ => false, fun _ d => d⟩
      ⟨true, 44100, 16, 2, 4, 44100, false⟩ [1, 2, 3] 8 0 true true false).1 rfl).1,
   ((getRawDataFromWAV_error_handling ⟨fun _ _ => false, fun _ d => d⟩
      ⟨true, 44100, 16, 2, 4, 44100, false⟩ [1, 2, 3] 8 0 true true false).1 rfl).2.1⟩
